import Mathlib

/-!
Verification of the WPS management system's report-generation core and
certificate-expiry classifier, shallowly embedded from
`backend/app/main.py` and `backend/app/services/pdf_generator.py`.

Python scalar values are embedded as `PyVal` (strings, integers, calendar
dates, string lists, and the null value `None`); a raw entity record is a
partial map from attribute name to value, where an attribute can be absent
(`Option.none` in the outer layer) or present with the Python null
(`PyVal.none`), mirroring `getattr` semantics on ORM objects.
-/

/-- Embedding of the Python scalar values that flow through the PDF
generator: strings, integers (numeric columns), calendar dates
(`datetime` values, carried as day/month/year), lists of strings
(split welding positions), and the null value `None`. -/
inductive PyVal where
  | str (s : String)
  | int (n : Int)
  | date (d m y : Nat)
  | list (l : List String)
  | none
  deriving DecidableEq, Repr

/-- A raw entity record: attribute name to value, `Option.none` when the
attribute is absent from the object, `some PyVal.none` when it is present
but bound to Python `None`. -/
def RawRecord : Type := String → Option PyVal

/-- The empty raw record: every attribute absent. -/
def emptyRec : RawRecord := fun _ => Option.none

/-- A raw record with a single attribute present. -/
def rec1 (f : String) (v : PyVal) : RawRecord :=
  fun g => if g = f then some v else Option.none

/-- A raw record with exactly two attributes present. -/
def rec2 (f : String) (v : PyVal) (g : String) (w : PyVal) : RawRecord :=
  fun h => if h = f then some v else if h = g then some w else Option.none

/-- Embedding of Python `getattr(obj, name, default)`: the attribute's
value when present (even when that value is `None`), the default
otherwise. -/
def getattr (r : RawRecord) (f : String) (d : PyVal) : PyVal :=
  (r f).getD d

/-- Embedding of the nested alias probe
`getattr(obj, f1, getattr(obj, f2, default))` used throughout
`generate_wpqr_pdf`: first alias when present, else second alias, else
the default. -/
def getattr2 (r : RawRecord) (f1 f2 : String) (d : PyVal) : PyVal :=
  match r f1 with
  | some v => v
  | Option.none => getattr r f2 d

/-- Python truthiness on the embedded values: `None`, the empty string,
zero and the empty list are falsy. -/
def pyTruthy : PyVal → Bool
  | .str s => s ≠ ""
  | .int n => n ≠ 0
  | .date _ _ _ => true
  | .list l => l ≠ []
  | .none => false

/-- Whether a value is the Python null. -/
def pyIsNone : PyVal → Bool
  | .none => true
  | _ => false

/-- Embedding of Python `str(v)` for the values that reach f-strings in
the table builders (`str(None)` is the four-letter word `"None"`). -/
def pyStr : PyVal → String
  | .str s => s
  | .int n => toString n
  | .date d m y => toString y ++ "-" ++ toString m ++ "-" ++ toString d
  | .list l => toString l
  | .none => "None"

/-! ### Certificate expiry classifier (`main.py`, `get_expiring_certificates`) -/

/-- Embedding of the `urgency_level` expression of
`get_expiring_certificates`:
`"critical" if days < 30 else "urgent" if days < 60 else "warning"`. -/
def urgencyLevel (days : Int) : String :=
  if days < 30 then "critical" else if days < 60 then "urgent" else "warning"

/-- Embedding of `days_until_expiry = (cert.expiry_date - date.today()).days`
together with the urgency tier, dates carried as day numbers. -/
def classify (expiryDate asOfDate : Int) : Int × String :=
  let days := expiryDate - asOfDate
  (days, urgencyLevel days)

/-- A certificate as the classifier sees it: identity plus expiry day
number. -/
structure Cert where
  certId : Nat
  expiry : Int
  deriving DecidableEq, Repr

/-- The per-certificate response record built inside the loop of
`get_expiring_certificates`: identity, computed days until expiry, and
the `urgency_level` field. -/
structure ExpCert where
  certId : Nat
  daysUntilExpiry : Int
  urgencyLevel : String
  deriving DecidableEq, Repr

/-- Embedding of the `ExpiringCertificate(...)` construction in the loop
body of `get_expiring_certificates`. -/
def mkExpiringCert (today : Int) (c : Cert) : ExpCert :=
  { certId := c.certId
    daysUntilExpiry := c.expiry - today
    urgencyLevel := urgencyLevel (c.expiry - today) }

/-- Embedding of the grouping loop of `get_expiring_certificates`: each
certificate is appended to exactly one of the `critical`, `urgent`,
`warning` lists by the `if days < 0 / elif days < 30 / elif days < 60 /
else` chain. -/
def groupCerts (today : Int) : List Cert → List ExpCert × List ExpCert × List ExpCert
  | [] => ([], [], [])
  | c :: rest =>
    let e := mkExpiringCert today c
    let (cr, ur, wa) := groupCerts today rest
    if e.daysUntilExpiry < 0 then (e :: cr, ur, wa)
    else if e.daysUntilExpiry < 30 then (e :: cr, ur, wa)
    else if e.daysUntilExpiry < 60 then (cr, e :: ur, wa)
    else (cr, ur, e :: wa)

/-- Embedding of `total_expiring=len(certificates)` in the response. -/
def totalExpiring (certs : List Cert) : Nat := certs.length

/-- C1: the classifier computes `days_until_expiry = expiry - as_of` and
tiers it by `< 30` critical (negatives included), `30 ≤ _ < 60` urgent,
`≥ 60` warning; the seven boundary inputs `-5, 0, 29, 30, 59, 60, 61`
yield critical, critical, critical, urgent, urgent, warning, warning. -/
theorem classifier_tiering (expiry asOf : Int) :
    (classify expiry asOf).1 = expiry - asOf ∧
    ((classify expiry asOf).1 < 30 → (classify expiry asOf).2 = "critical") ∧
    (30 ≤ (classify expiry asOf).1 → (classify expiry asOf).1 < 60 →
      (classify expiry asOf).2 = "urgent") ∧
    (60 ≤ (classify expiry asOf).1 → (classify expiry asOf).2 = "warning") ∧
    (urgencyLevel (-5) = "critical" ∧ urgencyLevel 0 = "critical" ∧
     urgencyLevel 29 = "critical" ∧ urgencyLevel 30 = "urgent" ∧
     urgencyLevel 59 = "urgent" ∧ urgencyLevel 60 = "warning" ∧
     urgencyLevel 61 = "warning") := by
  refine ⟨rfl, ?_, ?_, ?_, by decide⟩
  · intro h
    simp only [classify, urgencyLevel]
    simp [classify] at h
    simp [h]
  · intro h1 h2
    simp [classify] at h1 h2
    simp only [classify, urgencyLevel]
    rw [if_neg (by omega), if_pos h2]
  · intro h
    simp [classify] at h
    simp only [classify, urgencyLevel]
    rw [if_neg (by omega), if_neg (by omega)]

/-- Witness for C1: each tiering hypothesis discharged at a concrete
input (10, 40 and 70 days until expiry). -/
theorem classifier_tiering_witness :
    (classify 10 0).2 = "critical" ∧ (classify 40 0).2 = "urgent" ∧
    (classify 70 0).2 = "warning" :=
  ⟨(classifier_tiering 10 0).2.1 (by decide),
   (classifier_tiering 40 0).2.2.1 (by decide) (by decide),
   (classifier_tiering 70 0).2.2.2.1 (by decide)⟩

/-- The grouping loop is equivalent to filtering the classified
certificates by the three day ranges, in order. -/
theorem groupCerts_eq_filters (today : Int) (certs : List Cert) :
    groupCerts today certs =
      ((certs.map (mkExpiringCert today)).filter
         (fun e => decide (e.daysUntilExpiry < 30)),
       (certs.map (mkExpiringCert today)).filter
         (fun e => decide (30 ≤ e.daysUntilExpiry) && decide (e.daysUntilExpiry < 60)),
       (certs.map (mkExpiringCert today)).filter
         (fun e => decide (60 ≤ e.daysUntilExpiry))) := by
  induction certs with
  | nil => rfl
  | cons c rest ih =>
    simp only [groupCerts, ih, List.map_cons, List.filter_cons]
    split_ifs with h0 h1 h2 <;> simp_all <;> omega

/-- The three day-range predicates split any list of classified
certificates into pieces whose lengths sum to the whole. -/
theorem length_three_filters (l : List ExpCert) :
    (l.filter (fun e => decide (e.daysUntilExpiry < 30))).length
      + (l.filter
          (fun e => decide (30 ≤ e.daysUntilExpiry) && decide (e.daysUntilExpiry < 60))).length
      + (l.filter (fun e => decide (60 ≤ e.daysUntilExpiry))).length = l.length := by
  induction l with
  | nil => rfl
  | cons e rest ih =>
    simp only [List.filter_cons]
    split_ifs <;> simp_all <;> omega

/-- C10: in every expiring-certificates response the three urgency lists
partition the classified certificates — each certificate lands in exactly
one list, the `urgency_level` field of a listed record agrees with its
list, and `total_expiring` equals the sum of the three list lengths. -/
theorem expiring_groups_partition (today : Int) (certs : List Cert) :
    ((groupCerts today certs).1.length + (groupCerts today certs).2.1.length
      + (groupCerts today certs).2.2.length = totalExpiring certs) ∧
    (∀ e ∈ (groupCerts today certs).1, e.urgencyLevel = "critical") ∧
    (∀ e ∈ (groupCerts today certs).2.1, e.urgencyLevel = "urgent") ∧
    (∀ e ∈ (groupCerts today certs).2.2, e.urgencyLevel = "warning") ∧
    (∀ c ∈ certs,
      (mkExpiringCert today c ∈ (groupCerts today certs).1 ∧
       mkExpiringCert today c ∉ (groupCerts today certs).2.1 ∧
       mkExpiringCert today c ∉ (groupCerts today certs).2.2) ∨
      (mkExpiringCert today c ∉ (groupCerts today certs).1 ∧
       mkExpiringCert today c ∈ (groupCerts today certs).2.1 ∧
       mkExpiringCert today c ∉ (groupCerts today certs).2.2) ∨
      (mkExpiringCert today c ∉ (groupCerts today certs).1 ∧
       mkExpiringCert today c ∉ (groupCerts today certs).2.1 ∧
       mkExpiringCert today c ∈ (groupCerts today certs).2.2)) := by
  rw [groupCerts_eq_filters]
  refine ⟨?_, ?_, ?_, ?_, ?_⟩
  · simpa [totalExpiring] using
      length_three_filters (certs.map (mkExpiringCert today))
  · intro e he
    rcases List.mem_filter.1 he with ⟨hmem, hp⟩
    rcases List.mem_map.1 hmem with ⟨c, _, rfl⟩
    simp only [decide_eq_true_eq] at hp
    simp [mkExpiringCert, urgencyLevel] at hp ⊢
    simp [hp]
  · intro e he
    rcases List.mem_filter.1 he with ⟨hmem, hp⟩
    rcases List.mem_map.1 hmem with ⟨c, _, rfl⟩
    simp only [Bool.and_eq_true, decide_eq_true_eq] at hp
    simp only [mkExpiringCert] at hp ⊢
    rw [urgencyLevel, if_neg (by omega), if_pos (by omega)]
  · intro e he
    rcases List.mem_filter.1 he with ⟨hmem, hp⟩
    rcases List.mem_map.1 hmem with ⟨c, _, rfl⟩
    simp only [decide_eq_true_eq] at hp
    simp only [mkExpiringCert] at hp ⊢
    rw [urgencyLevel, if_neg (by omega), if_neg (by omega)]
  · intro c hc
    have hmem : mkExpiringCert today c ∈ certs.map (mkExpiringCert today) :=
      List.mem_map.2 ⟨c, hc, rfl⟩
    have htri : (mkExpiringCert today c).daysUntilExpiry < 30 ∨
        (30 ≤ (mkExpiringCert today c).daysUntilExpiry ∧
         (mkExpiringCert today c).daysUntilExpiry < 60) ∨
        60 ≤ (mkExpiringCert today c).daysUntilExpiry := by omega
    rcases htri with h | h | h
    · exact Or.inl ⟨List.mem_filter.2 ⟨hmem, by simpa⟩,
        fun hin => by
          have := (List.mem_filter.1 hin).2
          simp only [Bool.and_eq_true, decide_eq_true_eq] at this
          omega,
        fun hin => by
          have := (List.mem_filter.1 hin).2
          simp only [decide_eq_true_eq] at this
          omega⟩
    · refine Or.inr (Or.inl ⟨fun hin => ?_,
        List.mem_filter.2 ⟨hmem, by simp [h.1, h.2]⟩, fun hin => ?_⟩)
      · have := (List.mem_filter.1 hin).2
        simp only [decide_eq_true_eq] at this
        omega
      · have := (List.mem_filter.1 hin).2
        simp only [decide_eq_true_eq] at this
        omega
    · refine Or.inr (Or.inr ⟨fun hin => ?_, fun hin => ?_,
        List.mem_filter.2 ⟨hmem, by simpa⟩⟩)
      · have := (List.mem_filter.1 hin).2
        simp only [decide_eq_true_eq] at this
        omega
      · have := (List.mem_filter.1 hin).2
        simp only [Bool.and_eq_true, decide_eq_true_eq] at this
        omega

/-- Witness for C10 on a concrete three-certificate company: the length
equation and a concrete member of the critical list. -/
theorem expiring_groups_partition_witness :
    (mkExpiringCert 0 ⟨1, 10⟩).urgencyLevel = "critical" :=
  (expiring_groups_partition 0 [⟨1, 10⟩]).2.1 (mkExpiringCert 0 ⟨1, 10⟩)
    (by decide)

/-! ### Cell text truncation (`pdf_generator.py`, `_truncate_text`) -/

/-- Embedding of Python `len(s)` for strings. -/
def pyLen (s : String) : Nat := s.data.length

/-- Embedding of the Python slice `s[:n]`. -/
def pySlice (s : String) (n : Nat) : String := ⟨s.data.take n⟩

/-- Embedding of `_truncate_text(text, max_length)`:
`if not text or text == 'N/A': return 'N/A'` then
`text[:max_length] + "..." if len(text) > max_length else text`. -/
def truncateText (text : String) (maxLength : Nat) : String :=
  if text = "" ∨ text = "N/A" then "N/A"
  else if maxLength < pyLen text then pySlice text maxLength ++ "..."
  else text

/-- C6 counterexample: the empty string has length 0 ≤ 30 yet is not
left unchanged — `_truncate_text` maps it to the `'N/A'` placeholder. -/
theorem truncate_short_unchanged_cex :
    truncateText "" 30 = "N/A" ∧ "N/A" ≠ "" :=
  ⟨rfl, by decide⟩

/-- Truncating a long text yields a string that is neither empty nor the
`'N/A'` literal. -/
theorem truncate_long_shape (t : String) (n : Nat) (hlong : n < pyLen t) :
    (pySlice t n ++ "...").data = t.data.take n ++ ['.', '.', '.'] ∧
    pyLen (pySlice t n ++ "...") = n + 3 ∧
    pySlice t n ++ "..." ≠ "" ∧ pySlice t n ++ "..." ≠ "N/A" := by
  have hdata : (pySlice t n ++ "...").data = t.data.take n ++ ['.', '.', '.'] := by
    rw [String.data_append]
    rfl
  have hlt : n < t.data.length := hlong
  have htklen : (t.data.take n).length = n := by
    rw [List.length_take]
    omega
  have hlen : pyLen (pySlice t n ++ "...") = n + 3 := by
    simp [pyLen, hdata, htklen]
  refine ⟨hdata, hlen, ?_, ?_⟩
  · intro he
    have : pyLen (pySlice t n ++ "...") = 0 := by rw [he]; rfl
    omega
  · intro he
    have h3 : pyLen (pySlice t n ++ "...") = 3 := by rw [he]; rfl
    have hn0 : n = 0 := by omega
    have : (pySlice t n ++ "...").data = ['.', '.', '.'] := by
      rw [hdata, hn0]
      rfl
    rw [he] at this
    exact absurd this (by decide)

/-- C6 amended: for text that is neither empty nor the `'N/A'` literal,
`_truncate_text` leaves it unchanged when its length is at most the
maximum and otherwise returns the first `n` characters plus `"..."`;
empty or `'N/A'` text maps to `'N/A'`; and the rule is idempotent on
every input. -/
theorem truncate_spec_and_idempotent (t : String) (n : Nat) :
    (t ≠ "" → t ≠ "N/A" → pyLen t ≤ n → truncateText t n = t) ∧
    (t ≠ "" → t ≠ "N/A" → n < pyLen t →
      truncateText t n = pySlice t n ++ "...") ∧
    ((t = "" ∨ t = "N/A") → truncateText t n = "N/A") ∧
    truncateText (truncateText t n) n = truncateText t n := by
  refine ⟨?_, ?_, ?_, ?_⟩
  · intro h1 h2 hle
    rw [truncateText, if_neg (by tauto), if_neg (by omega)]
  · intro h1 h2 hgt
    rw [truncateText, if_neg (by tauto), if_pos hgt]
  · intro h
    rw [truncateText, if_pos h]
  · by_cases h : t = "" ∨ t = "N/A"
    · have hres : truncateText t n = "N/A" := by
        rw [truncateText, if_pos h]
      rw [hres, truncateText, if_pos (Or.inr rfl)]
    · by_cases hlong : n < pyLen t
      · have hres : truncateText t n = pySlice t n ++ "..." := by
          rw [truncateText, if_neg h, if_pos hlong]
        rw [hres]
        obtain ⟨hdata, hlen, hne, hna⟩ := truncate_long_shape t n hlong
        rw [truncateText, if_neg (by tauto), if_pos (by omega)]
        apply String.ext
        rw [String.data_append, String.data_append]
        have htake : (pySlice (pySlice t n ++ "...") n).data = t.data.take n := by
          have hlt : n < t.data.length := hlong
          have htklen : (t.data.take n).length = n := by
            rw [List.length_take]
            omega
          show ((pySlice t n ++ "...").data).take n = t.data.take n
          rw [String.data_append]
          show ((t.data.take n) ++ "...".data).take n = t.data.take n
          rw [List.take_append_eq_append_take, htklen]
          simp [List.take_take]
        rw [htake]
        rfl
      · have hres : truncateText t n = t := by
          rw [truncateText, if_neg h, if_neg hlong]
        rw [hres, hres]

/-- Witness for C6 at concrete inputs: a ten-character text with maximum
five is cut to five characters plus the ellipsis, a short text is kept,
and the rule is idempotent there. -/
theorem truncate_spec_and_idempotent_witness :
    truncateText "abcdefghij" 5 = "abcde..." ∧ truncateText "abc" 5 = "abc" ∧
    truncateText (truncateText "abcdefghij" 5) 5 = truncateText "abcdefghij" 5 := by
  refine ⟨?_, ?_, (truncate_spec_and_idempotent "abcdefghij" 5).2.2.2⟩
  · have h := (truncate_spec_and_idempotent "abcdefghij" 5).2.1
      (by decide) (by decide) (by decide)
    rw [h]
    rfl
  · exact (truncate_spec_and_idempotent "abc" 5).1 (by decide) (by decide)
      (by decide)

/-! ### Verdict coloring and symbols (`pdf_generator.py`,
`_create_wpqr_conclusion` and `_get_result_symbol`) -/

/-- The three reportlab colors the conclusion cell can take. -/
inductive PdfColor where
  | green
  | red
  | orange
  deriving DecidableEq, Repr

/-- ASCII-range model of Python `str.upper()` on one character. -/
def asciiUpperChar (c : Char) : Char :=
  if 97 ≤ c.toNat ∧ c.toNat ≤ 122 then Char.ofNat (c.toNat - 32) else c

/-- Model of Python `str.upper()` (the verdict vocabulary is ASCII). -/
def pyUpper (s : String) : String := ⟨s.data.map asciiUpperChar⟩

/-- Embedding of the conclusion coloring of `_create_wpqr_conclusion`:
`overall_result = wpqr_data.get('overall_result', 'pending').upper()` and
`result_color = colors.green if overall_result == 'PASS' else
colors.red if overall_result == 'FAIL' else colors.orange`. -/
def conclusionColor (overallResult : String) : PdfColor :=
  let u := pyUpper overallResult
  if u = "PASS" then PdfColor.green
  else if u = "FAIL" then PdfColor.red
  else PdfColor.orange

/-- Embedding of `_get_result_symbol`: exact (case-sensitive) comparison
with the lowercase literals `'pass'` and `'fail'`, every other value —
`None` included — maps to the not-tested symbol. -/
def resultSymbol (result : PyVal) : String :=
  if result = PyVal.str "pass" then "✓ PASS"
  else if result = PyVal.str "fail" then "✗ FAIL"
  else "- N/T"

/-- C2: evaluated at the failing input. A qualification record with
`overall_result = "Qualified"` — the vocabulary the WPQR model itself
documents (`# Qualified/Not Qualified`) — renders the conclusion cell
orange (neutral/pending), not the affirmative green: the coloring
compares the uppercased verdict against `'PASS'`/`'FAIL'` only, so the
green and red branches are unreachable for the documented values.
Likewise `_get_result_symbol` is case-sensitive: `'Pass'` (the
documented test-result vocabulary) yields the not-tested symbol. -/
theorem conclusion_color_qualified_bug :
    conclusionColor "Qualified" = PdfColor.orange ∧
    conclusionColor "Not Qualified" = PdfColor.orange ∧
    conclusionColor "pass" = PdfColor.green ∧
    conclusionColor "PASS" = PdfColor.green ∧
    conclusionColor "fail" = PdfColor.red ∧
    conclusionColor "" = PdfColor.orange ∧
    resultSymbol (PyVal.str "Pass") = "- N/T" ∧
    resultSymbol (PyVal.str "pass") = "✓ PASS" ∧
    resultSymbol PyVal.none = "- N/T" := by
  refine ⟨?_, ?_, ?_, ?_, ?_, ?_, ?_, ?_, ?_⟩ <;> decide

/-! ### Date formatting (`pdf_generator.py`, `_fmt_date`) -/

/-- Two-digit zero-padded rendering, as `strftime('%d')`/`%m` produce. -/
def pad2 (n : Nat) : String :=
  if n < 10 then "0" ++ toString n else toString n

/-- Embedding of `strftime('%d.%m.%Y')` on a date value. -/
def fmtDMY (d m y : Nat) : String :=
  pad2 d ++ "." ++ pad2 m ++ "." ++ toString y

/-- Split a character list on the dash character. -/
def splitDash : List Char → List Char → List (List Char)
  | [], acc => [acc.reverse]
  | c :: rest, acc =>
    if c = '-' then acc.reverse :: splitDash rest []
    else splitDash rest (c :: acc)

/-- Whether every character of a group is a decimal digit. -/
def allDigits (l : List Char) : Bool :=
  l.all fun c => 48 ≤ c.toNat && c.toNat ≤ 57

/-- Decimal value of an all-digit character group. -/
def digitsVal (l : List Char) : Nat :=
  l.foldl (fun n c => n * 10 + (c.toNat - 48)) 0

/-- Model of the Python-stdlib call `datetime.fromisoformat`, restricted
to the `YYYY-MM-DD` shape that `str()` of a date value produces: three
dash-separated all-digit groups of widths 4, 2, 2 with month and day in
calendar range; yields the (year, month, day) triple on success. -/
def parseIso (s : String) : Option (Nat × Nat × Nat) :=
  match splitDash s.data [] with
  | [y, m, d] =>
    if allDigits y ∧ allDigits m ∧ allDigits d ∧
       y.length = 4 ∧ m.length = 2 ∧ d.length = 2 ∧
       1 ≤ digitsVal m ∧ digitsVal m ≤ 12 ∧
       1 ≤ digitsVal d ∧ digitsVal d ≤ 31
    then some (digitsVal y, digitsVal m, digitsVal d) else Option.none
  | _ => Option.none

/-- Embedding of `_fmt_date`: `if not d: return "-"`, then the
`isinstance(d, datetime)` branch formats directly, then
`datetime.fromisoformat(str(d))` is tried and any failure falls back to
`str(d)`. -/
def fmtDate (d : PyVal) : String :=
  if pyTruthy d then
    match d with
    | .date dd mm yy => fmtDMY dd mm yy
    | v =>
      match parseIso (pyStr v) with
      | some (y, m, dd) => fmtDMY dd m y
      | Option.none => pyStr v
  else "-"

/-- C9 counterexample: the empty string is an unparseable value whose raw
string representation is `""`, yet `_fmt_date` renders the `"-"`
placeholder for it — falsiness is tested before parseability. -/
theorem fmt_date_empty_cex :
    fmtDate (PyVal.str "") = "-" ∧ parseIso "" = Option.none ∧ "-" ≠ "" := by
  refine ⟨rfl, ?_, by decide⟩
  decide

/-- C9 amended: `_fmt_date` is total and never raises; a falsy value
(null, empty string, zero) renders as the `"-"` placeholder, a datetime
value is formatted as `DD.MM.YYYY`, a nonempty string that parses as an
ISO date is formatted the same way, and any other truthy value falls
back to its raw string representation. -/
theorem fmt_date_total (v : PyVal) :
    (pyTruthy v = false → fmtDate v = "-") ∧
    (∀ d m y, v = PyVal.date d m y → fmtDate v = fmtDMY d m y) ∧
    (∀ s, v = PyVal.str s → s ≠ "" → parseIso s = Option.none →
      fmtDate v = s) ∧
    (∀ s y m d, v = PyVal.str s → s ≠ "" → parseIso s = some (y, m, d) →
      fmtDate v = fmtDMY d m y) := by
  refine ⟨?_, ?_, ?_, ?_⟩
  · intro h
    cases v with
    | str s =>
      have hs : s = "" := by simpa [pyTruthy] using h
      subst hs
      rfl
    | int n =>
      have hn : n = 0 := by simpa [pyTruthy] using h
      subst hn
      rfl
    | date d m y => simp [pyTruthy] at h
    | list l =>
      have hl : l = [] := by simpa [pyTruthy] using h
      subst hl
      rfl
    | none => rfl
  · intro d m y hv
    subst hv
    rfl
  · intro s hv hs hparse
    subst hv
    show (if pyTruthy (PyVal.str s) then
        match parseIso s with
        | some (y, m, dd) => fmtDMY dd m y
        | Option.none => s
      else "-") = s
    rw [if_pos (by simpa [pyTruthy] using hs), hparse]
  · intro s y m d hv hs hparse
    subst hv
    show (if pyTruthy (PyVal.str s) then
        match parseIso s with
        | some (y, m, dd) => fmtDMY dd m y
        | Option.none => s
      else "-") = fmtDMY d m y
    rw [if_pos (by simpa [pyTruthy] using hs), hparse]

/-- Witness for C9: every branch discharged at a concrete input — null
gives the placeholder, a datetime formats, an ISO string formats, and
an unparseable string falls back to itself. -/
theorem fmt_date_total_witness :
    fmtDate PyVal.none = "-" ∧
    fmtDate (PyVal.date 15 1 2024) = "15.01.2024" ∧
    fmtDate (PyVal.str "2024-01-15") = "15.01.2024" ∧
    fmtDate (PyVal.str "not a date") = "not a date" := by
  refine ⟨(fmt_date_total PyVal.none).1 rfl, ?_, ?_, ?_⟩
  · rw [(fmt_date_total _).2.1 15 1 2024 rfl]
    rfl
  · rw [(fmt_date_total _).2.2.2 "2024-01-15" 2024 1 15 rfl (by decide)
      (by decide)]
    rfl
  · exact (fmt_date_total _).2.2.1 "not a date" rfl (by decide) (by decide)

/-! ### Font resolution (`pdf_generator.py`, `_register_fonts`) -/

/-- The environment `_register_fonts` probes: which font files exist
under `assets/fonts`, and whether either `registerFont` pair raises. -/
structure FontEnv where
  arialExists : Bool
  arialBoldExists : Bool
  dejavuExists : Bool
  dejavuBoldExists : Bool
  arialRegisterRaises : Bool
  dejavuRegisterRaises : Bool
  deriving DecidableEq, Repr

/-- The outcome of font resolution: the two role bindings (`BODY_FONT`
and `BOLD_FONT`) plus whether a non-fatal warning was printed. -/
structure FontBinding where
  bodyFont : String
  boldFont : String
  warned : Bool
  deriving DecidableEq, Repr

/-- Embedding of `_register_fonts`: prefer the Arial Unicode pair when
both files exist, else the DejaVu pair when both files exist, else warn
and keep Helvetica; any registration exception is caught and likewise
falls back to Helvetica with a warning. The function is total — it never
propagates an exception. -/
def registerFonts (env : FontEnv) : FontBinding :=
  if env.arialExists && env.arialBoldExists then
    if env.arialRegisterRaises then ⟨"Helvetica", "Helvetica-Bold", true⟩
    else ⟨"Arial-Unicode", "Arial-Unicode-Bold", false⟩
  else if env.dejavuExists && env.dejavuBoldExists then
    if env.dejavuRegisterRaises then ⟨"Helvetica", "Helvetica-Bold", true⟩
    else ⟨"DejaVuSans", "DejaVuSans-Bold", false⟩
  else ⟨"Helvetica", "Helvetica-Bold", true⟩

/-- C7: font resolution always terminates with both roles bound to one
of the three concrete families (matched body/bold pairs); when the Arial
Unicode files are present and register cleanly they win, else the DejaVu
pair, else the built-in Helvetica with a non-fatal warning — so
generation proceeds even with no Unicode-capable font available. -/
theorem font_fallback_chain (a ab de db ar dr : Bool) :
    (registerFonts ⟨a, ab, de, db, ar, dr⟩ =
        ⟨"Arial-Unicode", "Arial-Unicode-Bold", false⟩ ∨
     registerFonts ⟨a, ab, de, db, ar, dr⟩ =
        ⟨"DejaVuSans", "DejaVuSans-Bold", false⟩ ∨
     registerFonts ⟨a, ab, de, db, ar, dr⟩ =
        ⟨"Helvetica", "Helvetica-Bold", true⟩) ∧
    (a = true → ab = true → ar = false →
      registerFonts ⟨a, ab, de, db, ar, dr⟩ =
        ⟨"Arial-Unicode", "Arial-Unicode-Bold", false⟩) ∧
    ((a && ab) = false → de = true → db = true → dr = false →
      registerFonts ⟨a, ab, de, db, ar, dr⟩ =
        ⟨"DejaVuSans", "DejaVuSans-Bold", false⟩) ∧
    ((a && ab) = false → (de && db) = false →
      registerFonts ⟨a, ab, de, db, ar, dr⟩ =
        ⟨"Helvetica", "Helvetica-Bold", true⟩) := by
  cases a <;> cases ab <;> cases de <;> cases db <;> cases ar <;>
    cases dr <;> refine ⟨?_, ?_, ?_, ?_⟩ <;> decide

/-- Witness for C7: with no font files present at all, both roles are
still bound — to Helvetica, with the warning recorded. -/
theorem font_fallback_chain_witness :
    registerFonts ⟨false, false, false, false, false, false⟩ =
      ⟨"Helvetica", "Helvetica-Bold", true⟩ :=
  (font_fallback_chain false false false false false false).2.2.2
    rfl rfl

/-! ### Field normalization (`pdf_generator.py`, the `wps_data` dict of
`generate_wps_pdf` and the `wpqr_data` dict of `generate_wpqr_pdf`) -/

/-- Embedding of `strftime('%d.%m.%Y')` as applied inside the dict
builders; only datetime-valued columns reach this call in the source. -/
def pyStrftime : PyVal → String
  | .date d m y => fmtDMY d m y
  | v => pyStr v

/-- Embedding of the guarded date pattern
`getattr(o, f, datetime.now()).strftime('%d.%m.%Y') if getattr(o, f, None)
else <els>` used for `date_approved`, `test_date`, `valid_from` and
`valid_until`. -/
def fmtAttrOr (r : RawRecord) (f : String) (els : String) : PyVal :=
  if pyTruthy (getattr r f PyVal.none) then
    PyVal.str (pyStrftime (getattr r f PyVal.none))
  else PyVal.str els

/-- Split a character list on the comma character. -/
def splitComma : List Char → List Char → List (List Char)
  | [], acc => [acc.reverse]
  | c :: rest, acc =>
    if c = ',' then acc.reverse :: splitComma rest []
    else splitComma rest (c :: acc)

/-- Embedding of Python `s.split(',')`. -/
def pySplitComma : PyVal → List String
  | .str s => (splitComma s.data []).map fun l => ⟨l⟩
  | _ => []

/-- Embedding of the `welding_positions` entry:
`getattr(wps, 'welding_positions', '').split(',') if
getattr(wps, 'welding_positions', '') else []`. -/
def splitPositions (r : RawRecord) : PyVal :=
  let v := getattr r "welding_positions" (PyVal.str "")
  if pyTruthy v then PyVal.list (pySplitComma v) else PyVal.list []

/-- Embedding of the `wps_data` dict literal of `generate_wps_pdf`, in
source declaration order; `now` is the `datetime.now().strftime(...)`
string. -/
def wpsData (r : RawRecord) (now : String) : List (String × PyVal) :=
  [("wps_number", getattr r "wps_number" (PyVal.str "N/A")),
   ("title", getattr r "title" (PyVal.str "N/A")),
   ("revision", getattr r "revision" (PyVal.str "0")),
   ("date_prepared", PyVal.str now),
   ("date_approved", fmtAttrOr r "approved_date" now),
   ("welding_code", PyVal.str "ISO 15614"),
   ("welding_process", getattr r "welding_process" (PyVal.str "N/A")),
   ("welding_process_type", getattr r "welding_process" (PyVal.str "N/A")),
   ("welding_positions", splitPositions r),
   ("joint_design", getattr r "joint_type" (PyVal.str "N/A")),
   ("backing_type", PyVal.str "None"),
   ("base_metal_specification", getattr r "base_material_spec" (PyVal.str "N/A")),
   ("base_metal_type_grade", getattr r "base_material_grade" (PyVal.str "N/A")),
   ("base_metal_p_number", PyVal.str "N/A"),
   ("base_metal_group_number", PyVal.str "N/A"),
   ("thickness_range_min", getattr r "base_material_thickness_min" (PyVal.int 0)),
   ("thickness_range_max", getattr r "base_material_thickness_max" (PyVal.int 0)),
   ("filler_metal_specification", getattr r "filler_material_spec" (PyVal.str "N/A")),
   ("filler_metal_classification", getattr r "filler_material_classification" (PyVal.str "N/A")),
   ("filler_metal_f_number", PyVal.str "N/A"),
   ("filler_metal_a_number", PyVal.str "N/A"),
   ("filler_metal_diameter", getattr r "filler_material_diameter" (PyVal.str "N/A")),
   ("filler_metal_trade_name", PyVal.str "N/A"),
   ("current_type", getattr r "current_type" (PyVal.str "N/A")),
   ("amperage_range_min", getattr r "current_range_min" (PyVal.int 0)),
   ("amperage_range_max", getattr r "current_range_max" (PyVal.int 0)),
   ("voltage_range_min", getattr r "voltage_range_min" (PyVal.int 0)),
   ("voltage_range_max", getattr r "voltage_range_max" (PyVal.int 0)),
   ("travel_speed_min", getattr r "travel_speed_min" (PyVal.int 0)),
   ("travel_speed_max", getattr r "travel_speed_max" (PyVal.int 0)),
   ("shielding_gas_type", PyVal.str "Mixed Gas"),
   ("shielding_gas_composition", getattr r "shielding_gas_composition" (PyVal.str "")),
   ("shielding_gas_flow_rate", getattr r "gas_flow_rate" (PyVal.str "N/A")),
   ("preheat_temp_min", getattr r "preheat_temp_min" (PyVal.int 0)),
   ("preheat_temp_max", getattr r "preheat_temp_max" (PyVal.int 0)),
   ("interpass_temp_min", getattr r "interpass_temp_max" (PyVal.int 0)),
   ("interpass_temp_max", getattr r "interpass_temp_max" (PyVal.int 0)),
   ("pwht_temperature", getattr r "pwht_temperature" (PyVal.str "N/A")),
   ("pwht_time", getattr r "pwht_time" (PyVal.str "N/A")),
   ("technique", PyVal.str "Standard welding technique as per procedure"),
   ("cleaning", PyVal.str "Wire brush and solvent cleaning"),
   ("remarks", getattr r "qualified_by_wpqr" (PyVal.str "No additional remarks")),
   ("status", getattr r "status" (PyVal.str "Draft")),
   ("prepared_by", PyVal.str "Engineering Department"),
   ("approved_by", getattr r "approved_by" (PyVal.str "N/A"))]

/-- Embedding of the `wpqr_data` dict literal of `generate_wpqr_pdf`, in
source declaration order; the aliased entries use the nested `getattr`
probe. -/
def wpqrData (r : RawRecord) (now : String) : List (String × PyVal) :=
  [("wpqr_number", getattr r "wpqr_number" (PyVal.str "N/A")),
   ("title", getattr r "title" (PyVal.str "WPQR Document")),
   ("revision", getattr r "revision" (PyVal.str "0")),
   ("test_date", fmtAttrOr r "test_date" now),
   ("welder_name", getattr r "welder_name" (PyVal.str "N/A")),
   ("welder_qualification", getattr r "welder_qualification" (PyVal.str "N/A")),
   ("welder_stamp_number", getattr r "welder_stamp_number" (PyVal.str "N/A")),
   ("welding_code", getattr r "welding_code" (PyVal.str "N/A")),
   ("base_metal_specification",
      getattr2 r "base_metal_specification" "actual_base_material" (PyVal.str "N/A")),
   ("welding_process", getattr r "welding_process" (PyVal.str "N/A")),
   ("welding_position",
      getattr2 r "welding_position" "actual_welding_position" (PyVal.str "N/A")),
   ("current_type", getattr r "current_type" (PyVal.str "N/A")),
   ("amperage_actual", getattr2 r "amperage_actual" "actual_current" (PyVal.str "N/A")),
   ("voltage_actual", getattr2 r "voltage_actual" "actual_voltage" (PyVal.str "N/A")),
   ("travel_speed_actual",
      getattr2 r "travel_speed_actual" "actual_travel_speed" (PyVal.str "N/A")),
   ("heat_input", getattr2 r "heat_input" "actual_heat_input" (PyVal.str "N/A")),
   ("visual_inspection_result", getattr r "visual_inspection_result" (PyVal.str "N/A")),
   ("visual_inspection_notes", getattr r "visual_inspection_notes" (PyVal.str "N/A")),
   ("tensile_test_result",
      getattr2 r "tensile_test_result" "tensile_result" (PyVal.str "N/A")),
   ("tensile_strength_mpa",
      getattr2 r "tensile_strength_mpa" "tensile_strength" (PyVal.str "N/A")),
   ("elongation_percent", getattr r "elongation_percent" (PyVal.str "N/A")),
   ("bend_test_result", getattr r "bend_test_result" (PyVal.str "N/A")),
   ("bend_test_type", getattr r "bend_test_type" (PyVal.str "N/A")),
   ("bend_test_angle", getattr r "bend_test_angle" (PyVal.str "N/A")),
   ("bend_test_notes", getattr r "bend_test_notes" (PyVal.str "N/A")),
   ("impact_test_result", getattr2 r "impact_test_result" "impact_result" (PyVal.str "N/A")),
   ("impact_test_temperature",
      getattr2 r "impact_test_temperature" "impact_test_temp" (PyVal.str "N/A")),
   ("impact_energy_j", getattr2 r "impact_energy_j" "impact_energy_weld" (PyVal.str "N/A")),
   ("overall_result", getattr r "overall_result" (PyVal.str "Pending")),
   ("valid_from", fmtAttrOr r "valid_from" now),
   ("valid_until", fmtAttrOr r "valid_until" "TBD"),
   ("tested_by", getattr r "tested_by" (PyVal.str "N/A")),
   ("approved_by", getattr r "approved_by" (PyVal.str "N/A")),
   ("remarks", getattr r "remarks" (PyVal.str "No remarks"))]

/-- Embedding of Python `dict.get(k, default)` on the built dict: a
present key returns its stored value even when that value is `None`. -/
def dget (d : List (String × PyVal)) (k : String) (dflt : PyVal) : PyVal :=
  match d.lookup k with
  | some v => v
  | Option.none => dflt

/-- C3 counterexample: a raw record whose `title` column is present but
null yields a canonical set in which `title` is bound to the null value —
`getattr`'s default only applies to absent attributes, so nulls are
passed through rather than replaced by a placeholder. -/
theorem normalize_nonnull_cex :
    (wpqrData (rec1 "title" PyVal.none) "01.01.2024").lookup "title" =
      some PyVal.none ∧ pyIsNone PyVal.none = true :=
  ⟨rfl, rfl⟩

/-- C3 amended: every canonical field is always present as a key (the
key sets of both dicts are fixed, independent of the record), and on a
raw record with every source field absent each canonical field is bound
to its declared non-null default; but a source field present with a null
value is passed through as null into the canonical set. -/
theorem normalize_keys_and_defaults (r : RawRecord) (now : String) :
    (wpqrData r now).map Prod.fst =
      ["wpqr_number", "title", "revision", "test_date", "welder_name",
       "welder_qualification", "welder_stamp_number", "welding_code",
       "base_metal_specification", "welding_process", "welding_position",
       "current_type", "amperage_actual", "voltage_actual",
       "travel_speed_actual", "heat_input", "visual_inspection_result",
       "visual_inspection_notes", "tensile_test_result",
       "tensile_strength_mpa", "elongation_percent", "bend_test_result",
       "bend_test_type", "bend_test_angle", "bend_test_notes",
       "impact_test_result", "impact_test_temperature", "impact_energy_j",
       "overall_result", "valid_from", "valid_until", "tested_by",
       "approved_by", "remarks"] ∧
    (wpsData r now).map Prod.fst =
      ["wps_number", "title", "revision", "date_prepared", "date_approved",
       "welding_code", "welding_process", "welding_process_type",
       "welding_positions", "joint_design", "backing_type",
       "base_metal_specification", "base_metal_type_grade",
       "base_metal_p_number", "base_metal_group_number",
       "thickness_range_min", "thickness_range_max",
       "filler_metal_specification", "filler_metal_classification",
       "filler_metal_f_number", "filler_metal_a_number",
       "filler_metal_diameter", "filler_metal_trade_name", "current_type",
       "amperage_range_min", "amperage_range_max", "voltage_range_min",
       "voltage_range_max", "travel_speed_min", "travel_speed_max",
       "shielding_gas_type", "shielding_gas_composition",
       "shielding_gas_flow_rate", "preheat_temp_min", "preheat_temp_max",
       "interpass_temp_min", "interpass_temp_max", "pwht_temperature",
       "pwht_time", "technique", "cleaning", "remarks", "status",
       "prepared_by", "approved_by"] ∧
    ((wpqrData emptyRec now).all fun p => !(pyIsNone p.2)) = true ∧
    ((wpsData emptyRec now).all fun p => !(pyIsNone p.2)) = true ∧
    (wpqrData r now).lookup "title" =
      some (getattr r "title" (PyVal.str "WPQR Document")) :=
  ⟨rfl, rfl, rfl, rfl, rfl⟩

/-- C4 counterexample: with the first alias `amperage_actual` present
but null and the second alias `actual_current` carrying 500, the
canonical value is null — the first *present* alias wins even when its
value is null, not the first present non-null one. -/
theorem alias_first_nonnull_cex :
    (wpqrData
        (rec2 "amperage_actual" PyVal.none "actual_current" (PyVal.int 500))
        "01.01.2024").lookup "amperage_actual" = some PyVal.none ∧
    PyVal.none ≠ PyVal.int 500 :=
  ⟨rfl, by decide⟩

/-- C4 amended: for every aliased canonical field of the qualification
dict, supplying a non-null value under either alias alone yields that
same canonical value; aliases are consulted in fixed priority order and
the first *present* value wins — even when it is null. -/
theorem alias_equivalence (v w : PyVal) (now : String)
    (_hv : pyIsNone v = false) :
    ((wpqrData (rec1 "base_metal_specification" v) now).lookup
        "base_metal_specification" = some v ∧
     (wpqrData (rec1 "actual_base_material" v) now).lookup
        "base_metal_specification" = some v) ∧
    ((wpqrData (rec1 "welding_position" v) now).lookup
        "welding_position" = some v ∧
     (wpqrData (rec1 "actual_welding_position" v) now).lookup
        "welding_position" = some v) ∧
    ((wpqrData (rec1 "amperage_actual" v) now).lookup
        "amperage_actual" = some v ∧
     (wpqrData (rec1 "actual_current" v) now).lookup
        "amperage_actual" = some v) ∧
    ((wpqrData (rec1 "voltage_actual" v) now).lookup
        "voltage_actual" = some v ∧
     (wpqrData (rec1 "actual_voltage" v) now).lookup
        "voltage_actual" = some v) ∧
    ((wpqrData (rec1 "travel_speed_actual" v) now).lookup
        "travel_speed_actual" = some v ∧
     (wpqrData (rec1 "actual_travel_speed" v) now).lookup
        "travel_speed_actual" = some v) ∧
    ((wpqrData (rec1 "heat_input" v) now).lookup "heat_input" = some v ∧
     (wpqrData (rec1 "actual_heat_input" v) now).lookup
        "heat_input" = some v) ∧
    ((wpqrData (rec1 "tensile_test_result" v) now).lookup
        "tensile_test_result" = some v ∧
     (wpqrData (rec1 "tensile_result" v) now).lookup
        "tensile_test_result" = some v) ∧
    ((wpqrData (rec1 "tensile_strength_mpa" v) now).lookup
        "tensile_strength_mpa" = some v ∧
     (wpqrData (rec1 "tensile_strength" v) now).lookup
        "tensile_strength_mpa" = some v) ∧
    ((wpqrData (rec1 "impact_test_result" v) now).lookup
        "impact_test_result" = some v ∧
     (wpqrData (rec1 "impact_result" v) now).lookup
        "impact_test_result" = some v) ∧
    ((wpqrData (rec1 "impact_test_temperature" v) now).lookup
        "impact_test_temperature" = some v ∧
     (wpqrData (rec1 "impact_test_temp" v) now).lookup
        "impact_test_temperature" = some v) ∧
    ((wpqrData (rec1 "impact_energy_j" v) now).lookup
        "impact_energy_j" = some v ∧
     (wpqrData (rec1 "impact_energy_weld" v) now).lookup
        "impact_energy_j" = some v) ∧
    ((wpqrData (rec2 "amperage_actual" v "actual_current" w) now).lookup
        "amperage_actual" = some v ∧
     (wpqrData (rec2 "tensile_test_result" v "tensile_result" w) now).lookup
        "tensile_test_result" = some v) :=
  ⟨⟨rfl, rfl⟩, ⟨rfl, rfl⟩, ⟨rfl, rfl⟩, ⟨rfl, rfl⟩, ⟨rfl, rfl⟩,
   ⟨rfl, rfl⟩, ⟨rfl, rfl⟩, ⟨rfl, rfl⟩, ⟨rfl, rfl⟩, ⟨rfl, rfl⟩,
   ⟨rfl, rfl⟩, ⟨rfl, rfl⟩⟩

/-- Witness for C4: the tensile result supplied as 480 under the newer
alias name alone resolves to 480. -/
theorem alias_equivalence_witness :
    (wpqrData (rec1 "tensile_result" (PyVal.int 480)) "x").lookup
      "tensile_test_result" = some (PyVal.int 480) :=
  ((alias_equivalence (PyVal.int 480) (PyVal.int 7) "x" rfl).2.2.2.2.2.2.1).2

/-! ### Range and gas cells (`pdf_generator.py`,
`_create_wps_welding_parameters` and `_create_wps_base_materials`) -/

/-- Model of Python `str.strip()` for the space character (the only
whitespace these cells can produce). -/
def pyStrip (s : String) : String :=
  ⟨((s.data.dropWhile (fun c => c = ' ')).reverse.dropWhile
      (fun c => c = ' ')).reverse⟩

/-- Embedding of the amperage cell of `_create_wps_welding_parameters`:
`f"{wps_data.get('amperage_range_min', 0)} -
{wps_data.get('amperage_range_max', 0)}"`. -/
def wpsAmperageCell (d : List (String × PyVal)) : String :=
  pyStr (dget d "amperage_range_min" (PyVal.int 0)) ++ " - " ++
    pyStr (dget d "amperage_range_max" (PyVal.int 0))

/-- Embedding of the thickness-range cell of
`_create_wps_base_materials`:
`f"{wps_data.get('thickness_range_min', 0)} -
{wps_data.get('thickness_range_max', 0)}"`. -/
def wpsThicknessCell (d : List (String × PyVal)) : String :=
  pyStr (dget d "thickness_range_min" (PyVal.int 0)) ++ " - " ++
    pyStr (dget d "thickness_range_max" (PyVal.int 0))

/-- Embedding of the Shielding Gas cell of
`_create_wps_welding_parameters`:
`f"{wps_data.get('shielding_gas_type', 'N/A')}
{wps_data.get('shielding_gas_composition', '')}".strip()`. -/
def wpsShieldingGasCell (d : List (String × PyVal)) : String :=
  pyStrip (pyStr (dget d "shielding_gas_type" (PyVal.str "N/A")) ++ " " ++
    pyStr (dget d "shielding_gas_composition" (PyVal.str "")))

/-- C5 counterexample: on a record with every source field absent both
amperage bounds take the default 0 and the cell renders exactly the
string `"0 - 0"` — there is no "not required" indicator anywhere in the
composer. -/
theorem range_cell_zero_cex :
    wpsAmperageCell (wpsData emptyRec "01.01.2024") = "0 - 0" :=
  rfl

/-- C5 amended: range cells always render `"<min> - <max>"` from the
canonical bounds, producing `"0 - 0"` when both bounds are at their
default; the Shielding Gas cell concatenates the hard-coded
`"Mixed Gas"` type with the composition, yielding `"Mixed Gas"` when the
composition column is absent and `"Mixed Gas None"` when it is present
but null — never a "not required" indicator. -/
theorem range_and_gas_cells (r : RawRecord) (now : String) :
    (wpsAmperageCell (wpsData r now) =
      pyStr (getattr r "current_range_min" (PyVal.int 0)) ++ " - " ++
        pyStr (getattr r "current_range_max" (PyVal.int 0))) ∧
    (wpsThicknessCell (wpsData r now) =
      pyStr (getattr r "base_material_thickness_min" (PyVal.int 0)) ++ " - " ++
        pyStr (getattr r "base_material_thickness_max" (PyVal.int 0))) ∧
    (r "current_range_min" = Option.none → r "current_range_max" = Option.none →
      wpsAmperageCell (wpsData r now) = "0 - 0") ∧
    (r "shielding_gas_composition" = Option.none →
      wpsShieldingGasCell (wpsData r now) = "Mixed Gas") ∧
    (r "shielding_gas_composition" = some PyVal.none →
      wpsShieldingGasCell (wpsData r now) = "Mixed Gas None") := by
  refine ⟨rfl, rfl, ?_, ?_, ?_⟩
  · intro h1 h2
    have e : wpsAmperageCell (wpsData r now) =
        pyStr (getattr r "current_range_min" (PyVal.int 0)) ++ " - " ++
          pyStr (getattr r "current_range_max" (PyVal.int 0)) := rfl
    rw [e]
    simp only [getattr, h1, h2]
    rfl
  · intro h
    have e : wpsShieldingGasCell (wpsData r now) =
        pyStrip (pyStr (PyVal.str "Mixed Gas") ++ " " ++
          pyStr (getattr r "shielding_gas_composition" (PyVal.str ""))) := rfl
    rw [e]
    simp only [getattr, h]
    rfl
  · intro h
    have e : wpsShieldingGasCell (wpsData r now) =
        pyStrip (pyStr (PyVal.str "Mixed Gas") ++ " " ++
          pyStr (getattr r "shielding_gas_composition" (PyVal.str ""))) := rfl
    rw [e]
    simp only [getattr, h]
    rfl

/-- Witness for C5: the all-absent record gives `"0 - 0"` and
`"Mixed Gas"`, and a record with a null gas composition gives
`"Mixed Gas None"`. -/
theorem range_and_gas_cells_witness :
    wpsAmperageCell (wpsData emptyRec "x") = "0 - 0" ∧
    wpsShieldingGasCell (wpsData emptyRec "x") = "Mixed Gas" ∧
    wpsShieldingGasCell
      (wpsData (rec1 "shielding_gas_composition" PyVal.none) "x") =
      "Mixed Gas None" :=
  ⟨(range_and_gas_cells emptyRec "x").2.2.1 rfl rfl,
   (range_and_gas_cells emptyRec "x").2.2.2.1 rfl,
   (range_and_gas_cells (rec1 "shielding_gas_composition" PyVal.none)
      "x").2.2.2.2 rfl⟩
